import Mathlib

/-!
Shallow embedding of `limpiarfondo.py` (batch background remover).

The per-image pipeline `procesar_imagen` and the batch driver `main` are
embedded as pure Lean functions over an oracle `Env` that records, point by
point, every observation the Python code makes of the outside world
(filesystem queries, file reads, the `rembg.remove` collaborator, the PIL
decode and the PIL save).  Exceptions of the Python code are modelled as
`Except PyExc`; the single `try/except` handler of `procesar_imagen`
corresponds to the `.error` branches, all of which produce the same
`mensajeExcepcion` string, exactly as the source's one handler does.
Write effects are logged in the `saves` field of the result, so
"performs no write" is the statement `saves = []`.
-/

/-- Mirrors posix `os.path.join` for two components (line 57 / 92 of the
source): an absolute second component wins, otherwise a `/` separator is
inserted unless one is already present. -/
def joinPath (a b : String) : String :=
  if b.data.head? = some '/' then b
  else if a = "" ∨ a.data.getLast? = some '/' then a ++ b
  else a ++ "/" ++ b

/-- Index of the last `'.'` of a character list, if any (Python `str.rfind('.')`). -/
def lastDotIdx : List Char → Option Nat
  | [] => none
  | c :: cs =>
    match lastDotIdx cs with
    | some i => some (i + 1)
    | none => if c = '.' then some 0 else none

/-- Mirrors `pathlib.Path(filename).stem` for a bare file name (line 90):
the name without its last suffix, where a dot at position `0` or at the very
end does not open a suffix. -/
def stem (s : String) : String :=
  let l := s.data
  match lastDotIdx l with
  | none => s
  | some i => if 0 < i ∧ i < l.length - 1 then ⟨l.take i⟩ else s

/-- Mirrors `os.path.splitext(f)[1]` for a bare file name (line 152): the
extension starts at the last dot, but only if some earlier character is not
a dot (leading dots never open an extension). -/
def splitextSuffix (s : String) : String :=
  let l := s.data
  match lastDotIdx l with
  | none => ""
  | some i => if (l.take i).any (fun c => c ≠ '.') then ⟨l.drop i⟩ else ""

/-- `VALID_EXTENSIONS` tuple of line 14. -/
def VALID_EXTENSIONS : List String :=
  [".jpg", ".jpeg", ".png", ".webp", ".bmp", ".tiff"]

/-- Python `str.lower` restricted to the ASCII case mapping, which is all
the extension strings of this program exercise. -/
def pyLower (s : String) : String := ⟨s.data.map Char.toLower⟩

/-- The candidate filter of lines 151-153:
`os.path.splitext(f)[1].lower() in VALID_EXTENSIONS`. -/
def esValido (f : String) : Bool :=
  VALID_EXTENSIONS.contains (pyLower (splitextSuffix f))

/-- The `archivos` list built at lines 150-153 from the directory listing. -/
def buscarArchivos (listing : List String) : List String :=
  listing.filter esValido

/-- A Python exception as observed by the handler of line 104: its rendered
message `str(e)` and the traceback `traceback.format_exc()`. -/
structure PyExc where
  msg : String
  trace : String
deriving DecidableEq

/-- An in-memory PIL image after `.convert("RGBA")` (line 87), abstracted to
its pixel payload. -/
structure Img where
  rgba : List Nat
deriving DecidableEq

/-- One invocation of `output_img.save(...)` (line 96) with the arguments the
source passes. -/
structure SaveCall where
  img : Img
  path : String
  format : String
  lossless : Bool
  quality : Nat
deriving DecidableEq

/-- One work item, the tuple `(input_folder, output_folder, f)` of line 177. -/
structure Tarea where
  input_folder : String
  output_folder : String
  filename : String
deriving DecidableEq

instance : Inhabited Tarea := ⟨⟨"", "", ""⟩⟩

/-- Oracle for every observation `procesar_imagen` makes of the outside
world, in program order: `pathExists` and `readBytes` are queried on the
input path before anything is written; `existsAfter`/`sizeAfter` are the
filesystem as seen by lines 99 after the save call. -/
structure Env where
  pathExists : String → Bool
  readBytes : String → Except PyExc (List Nat)
  remove : List Nat → Except PyExc (List Nat)
  decode : List Nat → Except PyExc Img
  save : Img → String → Except PyExc Unit
  existsAfter : String → Bool
  sizeAfter : String → Nat

/-- Result of one `procesar_imagen` call: the returned string, plus the log
of save calls it performed (the function's only write effect). -/
structure ProcResult where
  mensaje : String
  saves : List SaveCall
deriving DecidableEq

/-- The rendering of the one exception handler, line 106:
`f"❌ Error con {filename}: {str(e)}\n{tb}"`. -/
def mensajeExcepcion (filename : String) (e : PyExc) : String :=
  "❌ Error con " ++ filename ++ ": " ++ e.msg ++ "\n" ++ e.trace

/-- `procesar_imagen`, lines 54-106.  Every `.error` branch is the single
`except Exception` handler of lines 104-106 catching the exception raised at
that point of the body. -/
def procesar_imagen (env : Env) (t : Tarea) : ProcResult :=
  let input_path := joinPath t.input_folder t.filename
  if env.pathExists input_path = false then
    { mensaje := "❌ Archivo no encontrado: " ++ t.filename, saves := [] }
  else
    match env.readBytes input_path with
    | .error e => { mensaje := mensajeExcepcion t.filename e, saves := [] }
    | .ok in_bytes =>
      if in_bytes.isEmpty then
        { mensaje := "❌ No se pudieron leer datos de: " ++ t.filename, saves := [] }
      else
        match env.remove in_bytes with
        | .error e => { mensaje := mensajeExcepcion t.filename e, saves := [] }
        | .ok out_bytes =>
          if out_bytes.isEmpty then
            { mensaje := "❌ Error con " ++ t.filename ++ ": rembg no devolvió datos"
              saves := [] }
          else
            match env.decode out_bytes with
            | .error e => { mensaje := mensajeExcepcion t.filename e, saves := [] }
            | .ok output_img =>
              let output_filename := stem t.filename ++ "_sin_fondo.webp"
              let output_path := joinPath t.output_folder output_filename
              let llamada : SaveCall :=
                { img := output_img, path := output_path, format := "WEBP"
                  lossless := true, quality := 100 }
              match env.save output_img output_path with
              | .error e => { mensaje := mensajeExcepcion t.filename e, saves := [llamada] }
              | .ok _ =>
                if env.existsAfter output_path = true ∧ 0 < env.sizeAfter output_path then
                  { mensaje := "✅ Procesado exitosamente: " ++ t.filename ++ " → " ++
                      output_filename
                    saves := [llamada] }
                else
                  { mensaje := "❌ Error al guardar: " ++ t.filename, saves := [llamada] }

/-- The `tareas` list of line 177. -/
def tareas (input_folder output_folder : String) (archivos : List String) : List Tarea :=
  archivos.map (fun f => ⟨input_folder, output_folder, f⟩)

/-- The result strings of running `procesar_imagen` over a task list in
submission order (the sequential fallback loop of lines 192-199, and also
what `executor.map` delivers). -/
def mensajesPool (env : Env) (ts : List Tarea) : List String :=
  ts.map (fun t => (procesar_imagen env t).mensaje)

/-- Boolean list-infix test (executable substring containment). -/
def esInfijo (pat : List Char) : List Char → Bool
  | [] => pat.isEmpty
  | c :: cs => pat.isPrefixOf (c :: cs) || esInfijo pat cs

/-- Python's `"✅" in resultado` of lines 182 and 196: substring containment. -/
def contiene (pat s : String) : Bool := esInfijo pat.data s.data

/-- The per-item classification main uses at lines 182-185 and 196-199. -/
def esExitoso (r : String) : Bool := contiene "✅" r

/-- The two counters of lines 169-170 as updated by the loops of lines
179-185 and 192-199: `(resultados_exitosos, resultados_con_error)`. -/
def contarResultados (rs : List String) : Nat × Nat :=
  rs.foldl (fun acc r => if esExitoso r then (acc.1 + 1, acc.2) else (acc.1, acc.2 + 1))
    (0, 0)

/-- The pool's results paired with their submission index, listed in the
order the workers complete them: `σ` is the completion schedule (the
sequence of submission indices in completion order). -/
def poolCompletions (env : Env) (ts : List Tarea) (σ : List Nat) : List (Nat × String) :=
  σ.map (fun i => (i, (procesar_imagen env (ts.getD i default)).mensaje))

/-- `executor.map(procesar_imagen, tareas)` as consumed at line 179: the
iterator waits on the futures in submission order, so it yields, for each
submission index in turn, the result the pool computed for that index —
whatever the completion schedule `σ` was. -/
def executorMapMensajes (env : Env) (ts : List Tarea) (σ : List Nat) : List String :=
  (List.range ts.length).filterMap (fun i => (poolCompletions env ts σ).lookup i)

/-- How the pool phase of lines 172-186 can end: normally, or raising after
`k` results were already yielded and counted (`k = 0` is a failure of pool
construction itself). -/
inductive PoolBehavior where
  | ok : PoolBehavior
  | failAfter (k : Nat) : PoolBehavior

/-- The full sequence of result strings main counts (lines 172-199): the
pool loop's results, followed — only when the pool raised — by the fallback
loop's results over the whole task list, with the counters never reset. -/
def mainMensajes (env : Env) (ts : List Tarea) (σ : List Nat) :
    PoolBehavior → List String
  | .ok => executorMapMensajes env ts σ
  | .failAfter k => (executorMapMensajes env ts σ).take k ++ mensajesPool env ts

/-- Concrete oracle: no path exists, every collaborator call fails. -/
def envVacio : Env :=
  { pathExists := fun _ => false
    readBytes := fun _ => .error ⟨"", ""⟩
    remove := fun _ => .error ⟨"", ""⟩
    decode := fun _ => .error ⟨"", ""⟩
    save := fun _ _ => .error ⟨"", ""⟩
    existsAfter := fun _ => false
    sizeAfter := fun _ => 0 }

/-- Concrete oracle where every step of the pipeline succeeds. -/
def envFeliz : Env :=
  { pathExists := fun _ => true
    readBytes := fun _ => .ok [7]
    remove := fun _ => .ok [9]
    decode := fun bs => .ok ⟨bs⟩
    save := fun _ _ => .ok ()
    existsAfter := fun _ => true
    sizeAfter := fun _ => 1 }

/-- Like `envFeliz`, but the segmentation collaborator raises. -/
def envSegmentacionFalla : Env :=
  { envFeliz with remove := fun _ => .error ⟨"boom", "tb"⟩ }

/-- Like `envFeliz`, but the image decode raises. -/
def envDecodeFalla : Env :=
  { envFeliz with decode := fun _ => .error ⟨"boom", "tb"⟩ }

/-- Like `envFeliz`, but the save call raises. -/
def envGuardarFalla : Env :=
  { envFeliz with save := fun _ _ => .error ⟨"boom", "tb"⟩ }

/-- Like `envFeliz`, but differing on a path no task of the batch touches. -/
def envFeliz2 : Env :=
  { envFeliz with pathExists := fun p => !(p == "zzz") }

/-! ### Helper lemmas -/

theorem esInfijo_iff (p : List Char) : ∀ l : List Char, esInfijo p l = true ↔ p <:+: l := by
  intro l
  induction l with
  | nil =>
    cases p <;> simp [esInfijo]
  | cons c cs ih =>
    simp [esInfijo, List.isPrefixOf_iff_prefix, ih, List.infix_cons_iff]

theorem contiene_iff (p s : String) : contiene p s = true ↔ p.data <:+: s.data := by
  unfold contiene
  exact esInfijo_iff p.data s.data

theorem contiene_de_infijo (p s t : String) (h : contiene p s = true)
    (hst : s.data <:+: t.data) : contiene p t = true := by
  rw [contiene_iff] at h ⊢
  exact h.trans hst

theorem contar_aux (rs : List String) : ∀ a b : Nat,
    rs.foldl (fun acc r => if esExitoso r then (acc.1 + 1, acc.2) else (acc.1, acc.2 + 1))
        (a, b)
      = (a + rs.countP esExitoso, b + rs.countP (fun r => !esExitoso r)) := by
  induction rs with
  | nil => intro a b; simp
  | cons r rs ih =>
    intro a b
    by_cases h : esExitoso r = true <;>
      simp [List.foldl_cons, h, ih, List.countP_cons] <;> omega

theorem contar_eq (rs : List String) :
    contarResultados rs = (rs.countP esExitoso, rs.countP (fun r => !esExitoso r)) := by
  unfold contarResultados
  simpa using contar_aux rs 0 0

theorem contar_suma (rs : List String) :
    (contarResultados rs).1 + (contarResultados rs).2 = rs.length := by
  rw [contar_eq]
  simpa using (List.length_eq_countP_add_countP (l := rs) (p := esExitoso)).symm

theorem lookup_poolCompletions (env : Env) (ts : List Tarea) (i : Nat) :
    ∀ σ : List Nat, i ∈ σ →
      (poolCompletions env ts σ).lookup i
        = some ((procesar_imagen env (ts.getD i default)).mensaje) := by
  intro σ
  induction σ with
  | nil => intro h; cases h
  | cons j σ ih =>
    intro h
    by_cases hij : i = j
    · subst hij
      simp [poolCompletions, List.lookup]
    · rcases List.mem_cons.mp h with h' | h'
      · exact absurd h' hij
      · have hbe : (i == j) = false := beq_eq_false_iff_ne.mpr hij
        simpa [poolCompletions, List.lookup, hbe] using ih h'

theorem filterMap_eq_map_de (f : Nat → String) :
    ∀ (l : List Nat) (g : Nat → Option String),
      (∀ i ∈ l, g i = some (f i)) → l.filterMap g = l.map f := by
  intro l
  induction l with
  | nil => intro g _; simp
  | cons i l ih =>
    intro g h
    have hi := h i (List.mem_cons_self i l)
    simp [List.filterMap_cons, hi, ih g (fun j hj => h j (List.mem_cons_of_mem i hj))]

theorem range_map_getD (f : Tarea → String) :
    ∀ ts : List Tarea,
      (List.range ts.length).map (fun i => f (ts.getD i default)) = ts.map f := by
  intro ts
  induction ts with
  | nil => simp
  | cons t ts ih =>
    simp only [List.length_cons, List.range_succ_eq_map, List.map_cons, List.map_map]
    congr 1

theorem executorMap_eq (env : Env) (ts : List Tarea) (σ : List Nat)
    (h : ∀ i, i < ts.length → i ∈ σ) :
    executorMapMensajes env ts σ = mensajesPool env ts := by
  unfold executorMapMensajes mensajesPool
  calc (List.range ts.length).filterMap (fun i => (poolCompletions env ts σ).lookup i)
      = (List.range ts.length).map
          (fun i => (procesar_imagen env (ts.getD i default)).mensaje) :=
        filterMap_eq_map_de _ _ _
          (fun i hi => lookup_poolCompletions env ts i σ (h i (List.mem_range.mp hi)))
    _ = ts.map (fun t => (procesar_imagen env t).mensaje) :=
        range_map_getD (fun t => (procesar_imagen env t).mensaje) ts

theorem procesar_congr (env1 env2 : Env) (t : Tarea)
    (h1 : env1.pathExists (joinPath t.input_folder t.filename)
        = env2.pathExists (joinPath t.input_folder t.filename))
    (h2 : env1.readBytes (joinPath t.input_folder t.filename)
        = env2.readBytes (joinPath t.input_folder t.filename))
    (h3 : ∀ bs, env1.remove bs = env2.remove bs)
    (h4 : ∀ bs, env1.decode bs = env2.decode bs)
    (h5 : ∀ im p, env1.save im p = env2.save im p)
    (h6 : env1.existsAfter (joinPath t.output_folder (stem t.filename ++ "_sin_fondo.webp"))
        = env2.existsAfter (joinPath t.output_folder (stem t.filename ++ "_sin_fondo.webp")))
    (h7 : env1.sizeAfter (joinPath t.output_folder (stem t.filename ++ "_sin_fondo.webp"))
        = env2.sizeAfter (joinPath t.output_folder (stem t.filename ++ "_sin_fondo.webp"))) :
    procesar_imagen env1 t = procesar_imagen env2 t := by
  simp only [procesar_imagen]
  simp only [← h1, ← h2, ← h3, ← h4, ← h5, ← h6, ← h7]

theorem contiene_append_der (p s b : String) (h : contiene p s = true) :
    contiene p (s ++ b) = true := by
  refine contiene_de_infijo p s _ h ⟨[], b.data, ?_⟩
  simp [String.data_append]

theorem contiene_append_izq (p a s : String) (h : contiene p s = true) :
    contiene p (a ++ s) = true := by
  refine contiene_de_infijo p s _ h ⟨a.data, [], ?_⟩
  simp [String.data_append]

theorem ne_de_cabeza (s t : String) (h : s.data.head? ≠ t.data.head?) : s ≠ t := by
  intro he
  exact h (by rw [he])

theorem mensaje_contiene_nombre (env : Env) (t : Tarea) (p : String)
    (h : contiene p t.filename = true) :
    contiene p ((procesar_imagen env t).mensaje) = true := by
  unfold procesar_imagen mensajeExcepcion
  dsimp only
  repeat' split
  all_goals dsimp only
  all_goals repeat' first
    | exact contiene_append_izq p _ _ h
    | apply contiene_append_der

/-! ### Claims -/

/-- C5: for a Task whose resolved input path does not exist, `procesar_imagen`
returns the not-found failure and performs no write (its save log is empty),
so the output directory is not touched. -/
theorem C5_noEncontrado (env : Env) (t : Tarea)
    (h : env.pathExists (joinPath t.input_folder t.filename) = false) :
    procesar_imagen env t
      = { mensaje := "❌ Archivo no encontrado: " ++ t.filename, saves := [] } := by
  simp [procesar_imagen, h]

theorem C5_noEncontrado_testigo :
    procesar_imagen envVacio ⟨"in", "out", "a.jpg"⟩
      = { mensaje := "❌ Archivo no encontrado: " ++ "a.jpg", saves := [] } :=
  C5_noEncontrado envVacio ⟨"in", "out", "a.jpg"⟩ rfl

/-- C2: an exception raised by the segmentation collaborator is caught and
mapped to the failure rendering that carries the exception's message and
trace, with no write performed; `procesar_imagen` is total by construction
(it returns a `ProcResult` for every oracle), and in a batch every other
task's result is the one `procesar_imagen` computes for that task alone, so
the remaining tasks are unaffected. -/
theorem C2_aislamientoSegmentacion (env : Env) (t : Tarea) (bs : List Nat) (e : PyExc)
    (h1 : env.pathExists (joinPath t.input_folder t.filename) = true)
    (h2 : env.readBytes (joinPath t.input_folder t.filename) = .ok bs)
    (h3 : bs.isEmpty = false)
    (h4 : env.remove bs = .error e) :
    procesar_imagen env t = { mensaje := mensajeExcepcion t.filename e, saves := [] }
    ∧ ∀ ts : List Tarea,
        (mensajesPool env ts).length = ts.length
        ∧ ∀ j, (hj : j < ts.length) →
            (mensajesPool env ts).getD j ""
              = (procesar_imagen env (ts.getD j default)).mensaje := by
  constructor
  · simp [procesar_imagen, h1, h2, h3, h4]
  · intro ts
    constructor
    · simp [mensajesPool]
    · intro j hj
      have hjs : ts[j]? = some ts[j] := List.getElem?_eq_getElem hj
      simp [mensajesPool, List.getD_eq_getElem?_getD, List.getElem?_map, hjs]

theorem C2_testigo :
    procesar_imagen envSegmentacionFalla ⟨"in", "out", "a.jpg"⟩
      = { mensaje := mensajeExcepcion "a.jpg" ⟨"boom", "tb"⟩, saves := [] } :=
  (C2_aislamientoSegmentacion envSegmentacionFalla ⟨"in", "out", "a.jpg"⟩ [7] ⟨"boom", "tb"⟩
    rfl rfl rfl rfl).1

/-- C4: when a Task reaches the write step and the save call returns, the one
save performed is of the decoded RGBA image to
`output_directory/{stem(filename)}_sin_fondo.webp` with format WEBP, lossless
and quality 100; the returned message is the success rendering naming the
input and output filenames exactly when the written file exists with
non-zero size afterwards, and the save-verification failure otherwise. -/
theorem C4_escrituraVerificada (env : Env) (t : Tarea) (bs obs : List Nat) (im : Img)
    (h1 : env.pathExists (joinPath t.input_folder t.filename) = true)
    (h2 : env.readBytes (joinPath t.input_folder t.filename) = .ok bs)
    (h3 : bs.isEmpty = false)
    (h4 : env.remove bs = .ok obs)
    (h5 : obs.isEmpty = false)
    (h6 : env.decode obs = .ok im)
    (h7 : env.save im (joinPath t.output_folder (stem t.filename ++ "_sin_fondo.webp"))
        = .ok ()) :
    (procesar_imagen env t).saves
      = [{ img := im
           path := joinPath t.output_folder (stem t.filename ++ "_sin_fondo.webp")
           format := "WEBP", lossless := true, quality := 100 }]
    ∧ ((procesar_imagen env t).mensaje
          = "✅ Procesado exitosamente: " ++ t.filename ++ " → "
              ++ (stem t.filename ++ "_sin_fondo.webp")
        ↔ env.existsAfter (joinPath t.output_folder (stem t.filename ++ "_sin_fondo.webp"))
              = true
          ∧ 0 < env.sizeAfter (joinPath t.output_folder (stem t.filename ++ "_sin_fondo.webp")))
    ∧ (¬ (env.existsAfter (joinPath t.output_folder (stem t.filename ++ "_sin_fondo.webp"))
              = true
          ∧ 0 < env.sizeAfter (joinPath t.output_folder (stem t.filename ++ "_sin_fondo.webp")))
        → (procesar_imagen env t).mensaje = "❌ Error al guardar: " ++ t.filename) := by
  by_cases hc : env.existsAfter (joinPath t.output_folder (stem t.filename ++ "_sin_fondo.webp"))
        = true
      ∧ 0 < env.sizeAfter (joinPath t.output_folder (stem t.filename ++ "_sin_fondo.webp"))
  · have hres : procesar_imagen env t
        = { mensaje := "✅ Procesado exitosamente: " ++ t.filename ++ " → "
              ++ (stem t.filename ++ "_sin_fondo.webp")
            saves := [{ img := im
                        path := joinPath t.output_folder (stem t.filename ++ "_sin_fondo.webp")
                        format := "WEBP", lossless := true, quality := 100 }] } := by
      simp [procesar_imagen, h1, h2, h3, h4, h5, h6, h7, hc.1, hc.2, String.append_assoc]
    refine ⟨by rw [hres], ?_, fun hn => absurd hc hn⟩
    rw [hres]
    simpa [String.append_assoc] using hc
  · have hres : procesar_imagen env t
        = { mensaje := "❌ Error al guardar: " ++ t.filename
            saves := [{ img := im
                        path := joinPath t.output_folder (stem t.filename ++ "_sin_fondo.webp")
                        format := "WEBP", lossless := true, quality := 100 }] } := by
      simp only [procesar_imagen, h1, h2, h3, h4, h5, h6, h7]
      simp [hc]
    refine ⟨by rw [hres], ?_, fun _ => by rw [hres]⟩
    rw [hres]
    constructor
    · intro he
      have hl : ("❌ Error al guardar: " ++ t.filename).data.head? = some '❌' := rfl
      have hr : ("✅ Procesado exitosamente: " ++ t.filename ++ " → "
          ++ (stem t.filename ++ "_sin_fondo.webp")).data.head? = some '✅' := rfl
      exact absurd he (ne_de_cabeza _ _ (by rw [hl, hr]; decide))
    · intro hx
      exact absurd hx hc

theorem C4_testigo :
    (procesar_imagen envFeliz ⟨"in", "out", "a.jpg"⟩).saves
      = [{ img := ⟨[9]⟩
           path := joinPath "out" (stem "a.jpg" ++ "_sin_fondo.webp")
           format := "WEBP", lossless := true, quality := 100 }] :=
  (C4_escrituraVerificada envFeliz ⟨"in", "out", "a.jpg"⟩ [7] [9] ⟨[9]⟩
    rfl rfl rfl rfl rfl rfl rfl).1

/-- C1 (amended): when the pool run completes normally, and also when the
pool fails before yielding any result, each submitted Task contributes
exactly one counted result and the two counters sum to the number of Tasks;
but when the pool raises after `k` results were already counted, the
fallback loop re-runs the whole task list with the counters not reset, so
the counted results number `min k N + N` — the first `k` tasks are counted
twice. -/
theorem C1_unResultadoPorTarea (env : Env) (ts : List Tarea) (σ : List Nat) (k : Nat)
    (hσ : ∀ i, i < ts.length → i ∈ σ) :
    ((mainMensajes env ts σ .ok).length = ts.length
      ∧ (contarResultados (mainMensajes env ts σ .ok)).1
          + (contarResultados (mainMensajes env ts σ .ok)).2 = ts.length)
    ∧ ((mainMensajes env ts σ (.failAfter 0)).length = ts.length
      ∧ (contarResultados (mainMensajes env ts σ (.failAfter 0))).1
          + (contarResultados (mainMensajes env ts σ (.failAfter 0))).2 = ts.length)
    ∧ (mainMensajes env ts σ (.failAfter k)).length = min k ts.length + ts.length := by
  have hm : executorMapMensajes env ts σ = mensajesPool env ts := executorMap_eq env ts σ hσ
  have hlen : (mensajesPool env ts).length = ts.length := by simp [mensajesPool]
  refine ⟨⟨?_, ?_⟩, ⟨?_, ?_⟩, ?_⟩
  · simp [mainMensajes, hm, hlen]
  · rw [contar_suma]
    simp [mainMensajes, hm, hlen]
  · simp [mainMensajes, hm, hlen]
  · rw [contar_suma]
    simp [mainMensajes, hm, hlen]
  · simp [mainMensajes, hm, hlen, List.length_take]

theorem C1_testigo :
    (mainMensajes envVacio (tareas "in" "out" ["a.jpg"]) [0] .ok).length
      = (tareas "in" "out" ["a.jpg"]).length :=
  (C1_unResultadoPorTarea envVacio (tareas "in" "out" ["a.jpg"]) [0] 0
    (by
      intro i hi
      have h0 : i = 0 := by
        simpa [tareas] using hi
      simp [h0])).1.1

/-- C1 as stated is false: on a non-empty task list where the pool raises
after one result was already counted, the succeeded and failed counters sum
to 2, not to the single submitted Task. -/
theorem C1_contraejemplo :
    0 < (tareas "in" "out" ["a.jpg"]).length
    ∧ (contarResultados
          (mainMensajes envVacio (tareas "in" "out" ["a.jpg"]) [0] (.failAfter 1))).1
        + (contarResultados
            (mainMensajes envVacio (tareas "in" "out" ["a.jpg"]) [0] (.failAfter 1))).2
      ≠ (tareas "in" "out" ["a.jpg"]).length := by
  decide

/-- C3 (amended): when the pool fails before yielding any result, the
fallback loop executes `procesar_imagen` exactly once per task, strictly in
submission order, and the final counts equal the pure-sequential baseline;
when the pool instead raises after `k` results were already counted, the
fallback still attempts every task exactly once in submission order, but the
counted sequence is those `k` pool results followed by the whole baseline,
so the final counts exceed the baseline. -/
theorem C3_retrocesoSecuencial (env : Env) (ts : List Tarea) (σ : List Nat) (k : Nat)
    (hσ : ∀ i, i < ts.length → i ∈ σ) :
    mainMensajes env ts σ (.failAfter 0)
        = ts.map (fun t => (procesar_imagen env t).mensaje)
    ∧ contarResultados (mainMensajes env ts σ (.failAfter 0))
        = contarResultados (mensajesPool env ts)
    ∧ mainMensajes env ts σ (.failAfter k)
        = (mensajesPool env ts).take k ++ mensajesPool env ts := by
  have hm : executorMapMensajes env ts σ = mensajesPool env ts := executorMap_eq env ts σ hσ
  refine ⟨?_, ?_, ?_⟩
  · simp [mainMensajes, mensajesPool]
  · simp [mainMensajes]
  · simp [mainMensajes, hm]

theorem C3_testigo :
    mainMensajes envVacio (tareas "in" "out" ["a.jpg"]) [0] (.failAfter 0)
      = (tareas "in" "out" ["a.jpg"]).map (fun t => (procesar_imagen envVacio t).mensaje) :=
  (C3_retrocesoSecuencial envVacio (tareas "in" "out" ["a.jpg"]) [0] 0
    (by
      intro i hi
      have h0 : i = 0 := by
        simpa [tareas] using hi
      simp [h0])).1

/-- C3 as stated is false: when the pool fails after one result was already
counted, the final counters do not match the pure-sequential baseline. -/
theorem C3_contraejemplo :
    contarResultados
        (mainMensajes envVacio (tareas "in" "out" ["a.jpg"]) [0] (.failAfter 1))
      ≠ contarResultados (mensajesPool envVacio (tareas "in" "out" ["a.jpg"])) := by
  decide

/-- C7 (amended): `executor.map` yields results in submission order, not in
completion order — for every completion schedule `σ` covering the task
indices, the yielded sequence equals the submission-order baseline, so the
index `i` of the per-item progress line refers to submission (filename) order
and the final counts are independent of the schedule. -/
theorem C7_ordenDeEnvio (env : Env) (ts : List Tarea) (σ : List Nat)
    (hσ : ∀ i, i < ts.length → i ∈ σ) :
    executorMapMensajes env ts σ = mensajesPool env ts
    ∧ contarResultados (executorMapMensajes env ts σ)
        = contarResultados (mensajesPool env ts) := by
  have h := executorMap_eq env ts σ hσ
  exact ⟨h, by rw [h]⟩

theorem C7_testigo :
    executorMapMensajes envVacio (tareas "in" "out" ["a.jpg", "b.jpg"]) [1, 0]
      = mensajesPool envVacio (tareas "in" "out" ["a.jpg", "b.jpg"]) :=
  (C7_ordenDeEnvio envVacio (tareas "in" "out" ["a.jpg", "b.jpg"]) [1, 0]
    (by
      intro i hi
      have h01 : i = 0 ∨ i = 1 := by
        have : i < 2 := by simpa [tareas] using hi
        omega
      rcases h01 with h | h <;> simp [h])).1

/-- C7 as stated is false: with completion schedule `[1, 0]` (the second
task finishes first), the sequence `executor.map` yields to the caller is
not the completion-order sequence of the pool. -/
theorem C7_contraejemplo :
    executorMapMensajes envVacio (tareas "in" "out" ["a.jpg", "b.jpg"]) [1, 0]
      ≠ (poolCompletions envVacio (tareas "in" "out" ["a.jpg", "b.jpg"]) [1, 0]).map
          Prod.snd := by
  decide

/-- C6 (amended): a decoding failure and an encoding/write failure are both
caught by the one generic exception handler and rendered as the same failure
string `❌ Error con {filename}: {message}\n{trace}` — the code attaches no
distinct error kinds — and the batch classifies outcomes by scanning the
rendered text for the `✅` marker. -/
theorem C6_manejadorGenerico (env : Env) (t : Tarea) (bs obs : List Nat) (im : Img)
    (e : PyExc)
    (h1 : env.pathExists (joinPath t.input_folder t.filename) = true)
    (h2 : env.readBytes (joinPath t.input_folder t.filename) = .ok bs)
    (h3 : bs.isEmpty = false)
    (h4 : env.remove bs = .ok obs)
    (h5 : obs.isEmpty = false) :
    (env.decode obs = .error e →
      (procesar_imagen env t).mensaje = mensajeExcepcion t.filename e)
    ∧ (env.decode obs = .ok im →
        env.save im (joinPath t.output_folder (stem t.filename ++ "_sin_fondo.webp"))
            = .error e →
        (procesar_imagen env t).mensaje = mensajeExcepcion t.filename e)
    ∧ ∀ rs : List String,
        contarResultados rs
          = (rs.countP (fun r => contiene "✅" r), rs.countP (fun r => !contiene "✅" r)) := by
  refine ⟨?_, ?_, fun rs => contar_eq rs⟩
  · intro hd
    simp [procesar_imagen, h1, h2, h3, h4, h5, hd]
  · intro hd hs
    simp [procesar_imagen, h1, h2, h3, h4, h5, hd, hs]

theorem C6_testigo :
    (procesar_imagen envDecodeFalla ⟨"in", "out", "a.jpg"⟩).mensaje
      = mensajeExcepcion "a.jpg" ⟨"boom", "tb"⟩ :=
  (C6_manejadorGenerico envDecodeFalla ⟨"in", "out", "a.jpg"⟩ [7] [9] ⟨[9]⟩ ⟨"boom", "tb"⟩
    rfl rfl rfl rfl rfl).1 rfl

/-- C6 as stated is false: a Task failing at the decode step and a Task
failing at the encode/write step with the same underlying exception produce
byte-for-byte identical failure messages, so no reason distinguishes the two
classes. -/
theorem C6_contraejemplo :
    (procesar_imagen envDecodeFalla ⟨"in", "out", "a.jpg"⟩).mensaje
        = (procesar_imagen envGuardarFalla ⟨"in", "out", "a.jpg"⟩).mensaje
    ∧ (procesar_imagen envDecodeFalla ⟨"in", "out", "a.jpg"⟩).mensaje
        = mensajeExcepcion "a.jpg" ⟨"boom", "tb"⟩ := by
  decide

/-- C8 (amended): the candidate selection of lines 150-153 keeps the
enumerated filenames verbatim (a sublist of the listing, case preserved),
but membership in the fixed extension set is tested on the LOWERCASED
extension, so the extension comparison itself is case-insensitive. -/
theorem C8_filtroExtensiones (listing : List String) :
    (buscarArchivos listing).Sublist listing
    ∧ ∀ f, f ∈ buscarArchivos listing
        ↔ f ∈ listing ∧ VALID_EXTENSIONS.contains (pyLower (splitextSuffix f)) = true := by
  constructor
  · exact List.filter_sublist listing
  · intro f
    simp [buscarArchivos, esValido, List.mem_filter]

/-- C8 as stated is false: `A.JPG` is selected by the filter although its
extension `.JPG` matches no member of the fixed set case-sensitively. -/
theorem C8_contraejemplo :
    esValido "A.JPG" = true
    ∧ VALID_EXTENSIONS.contains (splitextSuffix "A.JPG") = false := by
  decide

/-- C9: with a deterministic collaborator, re-running the batch produced by
the same directory listing against two oracles that agree on the input
files, on the collaborator calls and on the post-save checks of the batch's
own output paths yields identical `ProcResult`s for every task — the same
per-item classification and the same save calls (hence the same set of
output filenames). -/
theorem C9_reejecucionDeterminista (env1 env2 : Env) (listing : List String)
    (inp outp : String)
    (hremove : ∀ bs, env1.remove bs = env2.remove bs)
    (hdecode : ∀ bs, env1.decode bs = env2.decode bs)
    (hsave : ∀ im p, env1.save im p = env2.save im p)
    (hpe : ∀ f ∈ buscarArchivos listing,
        env1.pathExists (joinPath inp f) = env2.pathExists (joinPath inp f))
    (hrb : ∀ f ∈ buscarArchivos listing,
        env1.readBytes (joinPath inp f) = env2.readBytes (joinPath inp f))
    (hea : ∀ f ∈ buscarArchivos listing,
        env1.existsAfter (joinPath outp (stem f ++ "_sin_fondo.webp"))
          = env2.existsAfter (joinPath outp (stem f ++ "_sin_fondo.webp")))
    (hsa : ∀ f ∈ buscarArchivos listing,
        env1.sizeAfter (joinPath outp (stem f ++ "_sin_fondo.webp"))
          = env2.sizeAfter (joinPath outp (stem f ++ "_sin_fondo.webp"))) :
    (tareas inp outp (buscarArchivos listing)).map (procesar_imagen env1)
      = (tareas inp outp (buscarArchivos listing)).map (procesar_imagen env2) := by
  apply List.map_congr_left
  intro t ht
  rw [tareas] at ht
  rcases List.mem_map.mp ht with ⟨f, hf, rfl⟩
  exact procesar_congr env1 env2 ⟨inp, outp, f⟩ (hpe f hf) (hrb f hf) hremove hdecode hsave
    (hea f hf) (hsa f hf)

theorem C9_testigo :
    (tareas "in" "out" (buscarArchivos ["a.jpg"])).map (procesar_imagen envFeliz)
      = (tareas "in" "out" (buscarArchivos ["a.jpg"])).map (procesar_imagen envFeliz2) :=
  C9_reejecucionDeterminista envFeliz envFeliz2 ["a.jpg"] "in" "out"
    (fun _ => rfl) (fun _ => rfl) (fun _ _ => rfl)
    (by
      intro f hf
      rw [buscarArchivos] at hf
      have hf1 : f = "a.jpg" := by simpa using (List.mem_filter.mp hf).1
      subst hf1
      decide)
    (fun _ _ => rfl) (fun _ _ => rfl) (fun _ _ => rfl)

/-- C10: the batch counts an outcome as succeeded exactly when the rendered
result string contains `✅`; every message `procesar_imagen` renders embeds
the task's filename, so for a filename that itself contains `✅` every
outcome — in particular the not-found failure — is counted as succeeded. -/
theorem C10_marcaEnNombre (fn : String) (h : contiene "✅" fn = true) :
    (∀ rs : List String,
        contarResultados rs
          = (rs.countP (fun r => esExitoso r), rs.countP (fun r => !esExitoso r)))
    ∧ (∀ (env : Env) (inp outp : String),
        esExitoso ((procesar_imagen env ⟨inp, outp, fn⟩).mensaje) = true)
    ∧ (∀ (env : Env) (inp outp : String),
        env.pathExists (joinPath inp fn) = false →
          (procesar_imagen env ⟨inp, outp, fn⟩).mensaje = "❌ Archivo no encontrado: " ++ fn
          ∧ contarResultados [(procesar_imagen env ⟨inp, outp, fn⟩).mensaje] = (1, 0)) := by
  refine ⟨fun rs => contar_eq rs, ?_, ?_⟩
  · intro env inp outp
    exact mensaje_contiene_nombre env ⟨inp, outp, fn⟩ "✅" h
  · intro env inp outp hp
    have hmsg : (procesar_imagen env ⟨inp, outp, fn⟩).mensaje
        = "❌ Archivo no encontrado: " ++ fn := by
      simp [procesar_imagen, hp]
    refine ⟨hmsg, ?_⟩
    have hex : esExitoso ((procesar_imagen env ⟨inp, outp, fn⟩).mensaje) = true := by
      rw [hmsg]
      exact contiene_append_izq "✅" _ fn h
    simp [contarResultados, hex]

theorem C10_testigo :
    contiene "✅" "✅.jpg" = true
    ∧ (procesar_imagen envVacio ⟨"in", "out", "✅.jpg"⟩).mensaje
        = "❌ Archivo no encontrado: " ++ "✅.jpg"
    ∧ contarResultados [(procesar_imagen envVacio ⟨"in", "out", "✅.jpg"⟩).mensaje]
        = (1, 0) := by
  refine ⟨by decide, ?_, ?_⟩
  · exact ((C10_marcaEnNombre "✅.jpg" (by decide)).2.2 envVacio "in" "out" rfl).1
  · exact ((C10_marcaEnNombre "✅.jpg" (by decide)).2.2 envVacio "in" "out" rfl).2
